import Mathlib

/-!
Verification development for the Objective subsystem of the Advantage
reinforcement-learning library (`src/agents/objectives.py`).

The embedding models the module's numerical and state-machine semantics:

* `Transition` / `make_element`: the element record held by buffers.  The
  element class itself lives in `advantage.buffers` (not part of the sources
  at hand), so its construction is modelled from the spec: `n_step_return`
  starts equal to `reward`.
* `ValueGradientObjective.add_reward`: the reward-folding routine
  `_add_reward` (objectives.py lines 168-183), including the NumPy
  semantics of `np.arange(1, buffer_len)[-1:]` and of the in-place
  broadcast add `elements.n_step_return += discounted`.
* `ValueGradientObjective.push`: the ingest routine (lines 206-232).
* `ValueGradientObjective.optimize` / `PolicyGradientObjective.optimize`
  (lines 234-244 and 405-417): batch loop plus improvement-step counting.
* `DecoupledValueGradientObjective.optimize` (lines 302-311): sync cadence.
* Constructor arity bookkeeping for the `super().__init__(self, ...)` calls
  (lines 28-47, 156-160, 339-343).

Rewards and discount factors are modelled as rationals; Python integers as
`Int`/`Nat`.  Fallible operations (NumPy broadcasting errors) return
`Option`.
-/

namespace Advantage

/-- One environment step's record plus the accumulating n-step return,
as stored in the waiting buffer and the replay buffer.  States are opaque
to the objective logic; we model them (and actions) as integers. -/
structure Transition where
  state : Int
  action : Int
  reward : ℚ
  next_state : Int
  done : Bool
  n_step_return : ℚ
deriving DecidableEq

/-- All fields of a `Transition` except the mutable `n_step_return`,
used to state that folding rewrites only the accumulated return. -/
def Transition.strip (t : Transition) : Int × Int × ℚ × Int × Bool :=
  (t.state, t.action, t.reward, t.next_state, t.done)

/-- Raw environment step, the payload of the `env_dict` handed to `push`. -/
structure EnvStep where
  state : Int
  action : Int
  reward : ℚ
  next_state : Int
  done : Bool
deriving DecidableEq

/-- Modelled from the spec: `element_cls.make_element` of the buffers
module (not among the sources at hand) builds a `Transition` from the raw
environment step, with `n_step_return` starting equal to `reward`
(spec section 3, "Data model"). -/
def make_element (env : EnvStep) : Transition :=
  { state := env.state
    action := env.action
    reward := env.reward
    next_state := env.next_state
    done := env.done
    n_step_return := env.reward }

/-- `np.arange(a, b)` for natural bounds: the list `[a, a+1, ..., b-1]`
(empty when `b ≤ a`). -/
def npArange (a b : Nat) : List Nat :=
  (List.range (b - a)).map (fun k => k + a)

/-- The Python slice `xs[-1:]`: the last element as a one-element list,
or the empty list when `xs` is empty. -/
def sliceFromLast {α : Type} (xs : List α) : List α :=
  xs.drop (xs.length - 1)

/-- NumPy in-place broadcast addition `xs += ys` on one-dimensional arrays:
defined when the shapes match, or when `ys` has exactly one entry (which is
then added to every entry of `xs`).  Any other shape combination — in
particular an empty `ys` against a non-empty `xs` — raises a `ValueError`,
modelled as `none`. -/
def npAddInPlace (xs ys : List ℚ) : Option (List ℚ) :=
  if ys.length = xs.length then some (List.zipWith (fun a b => a + b) xs ys)
  else if ys.length = 1 then some (xs.map (fun a => a + ys.headD 0))
  else none

namespace ValueGradientObjective

/-- `ValueGradientObjective._add_reward` (objectives.py lines 168-183).
`elements = self._waiting_buffer.sample(buffer_len)` is the full buffer
contents (the buffer's `sample` is modelled from the spec: it returns the
current contents without consuming them).  The factor array is computed
exactly as the source writes it:
`np.power(self._discount_factor, np.arange(1, buffer_len)[-1:])`, i.e. the
single factor `discount_factor ^ (buffer_len - 1)` when `buffer_len ≥ 2`
and the empty array otherwise, after which
`elements.n_step_return += factors * reward` broadcasts. -/
def add_reward (discount_factor : ℚ) (waiting : List Transition)
    (reward : ℚ) : Option (List Transition) :=
  let buffer_len := waiting.length
  let factors := (sliceFromLast (npArange 1 buffer_len)).map
    (fun k => discount_factor ^ k)
  let discounted := factors.map (fun f => f * reward)
  (npAddInPlace (waiting.map Transition.n_step_return) discounted).map
    (fun rs => List.zipWith (fun t r => { t with n_step_return := r }) waiting rs)

/-- Observable state of a `ValueGradientObjective`: the waiting buffer's
contents (oldest first), the batches pushed so far to the replay buffer
(the replay buffer's `push`/eviction internals are external collaborators;
we record the pushed batches), and the arguments of every `bootstrap_func`
call made so far. -/
structure State where
  waiting : List Transition
  replay : List (List Transition)
  bootstrap_calls : List Int
deriving DecidableEq

/-- The state of a freshly constructed objective: empty waiting buffer,
nothing pushed, no bootstrap calls. -/
def initState : State := { waiting := [], replay := [], bootstrap_calls := [] }

/-- `ValueGradientObjective.push` (objectives.py lines 206-232).
Control flow of the source: build the element; if the waiting buffer is
non-empty (Python truthiness via its length), fold the new reward with
`_add_reward`; then, if the element is `done` or the buffer length equals
`steps`, flush — bootstrapping first via
`self._add_reward(bootstrap_func([element.next_state]))` when the element
is not `done` — by pushing `self._waiting_buffer.sample(buffer_len)` to
the replay buffer and clearing; otherwise append the element.  The source
guards the bootstrap with `if not element.done`; we write the two flush
branches with the polarity flipped, which is the same dispatch. -/
def push (discount_factor : ℚ) (steps : Nat) (bootstrap_func : Int → ℚ)
    (s : State) (env : EnvStep) : Option State :=
  let element := make_element env
  (if s.waiting = [] then some s.waiting
   else add_reward discount_factor s.waiting element.reward).bind
    (fun waiting =>
      let buffer_len := waiting.length
      if element.done || buffer_len = steps then
        if element.done then
          some { waiting := []
                 replay := s.replay ++ [waiting.take buffer_len]
                 bootstrap_calls := s.bootstrap_calls }
        else
          (add_reward discount_factor waiting
              (bootstrap_func element.next_state)).map
            (fun waiting2 =>
              { waiting := []
                replay := s.replay ++ [waiting2.take buffer_len]
                bootstrap_calls := s.bootstrap_calls ++ [element.next_state] })
      else
        some { s with waiting := waiting ++ [element] })

/-- Counters touched by an `optimize` call; `updates` counts the
`func.update` invocations performed inside the sampling loop
(`improvement_steps` is a Python integer, so it is an `Int`: the
decoupled subclass decrements it). -/
structure OptState where
  improvement_steps : Int
  updates : Nat
deriving DecidableEq

/-- `ValueGradientObjective.optimize` (objectives.py lines 234-244):
one `func.update` per batch yielded by
`replay_buffer.sample_batches(batch_size, iterations_of_optimization)`
(an external collaborator, so the yielded batches are a parameter), then
`improvement_steps += 1`. -/
def optimize (s : OptState) (batches : List (List Transition)) : OptState :=
  let s1 := batches.foldl (fun st _b => { st with updates := st.updates + 1 }) s
  { s1 with improvement_steps := s1.improvement_steps + 1 }

end ValueGradientObjective

namespace PolicyGradientObjective

/-- `PolicyGradientObjective.optimize` (objectives.py lines 405-417):
same shape as the value-gradient version — one `func.update` per yielded
batch, then `improvement_steps += 1`. -/
def optimize (s : ValueGradientObjective.OptState)
    (batches : List (List Transition)) : ValueGradientObjective.OptState :=
  let s1 := batches.foldl (fun st _b => { st with updates := st.updates + 1 }) s
  { s1 with improvement_steps := s1.improvement_steps + 1 }

end PolicyGradientObjective

namespace DecoupledValueGradientObjective

/-- State of a `DecoupledValueGradientObjective` relevant to `optimize`:
the base counters, the `_optimization_calls` field (set to `0` in
`__init__`, objectives.py line 272), and the number of `sync()`
invocations performed so far (each `sync()` runs the copy op once). -/
structure State where
  opt : ValueGradientObjective.OptState
  optimization_calls : Nat
  sync_count : Nat
deriving DecidableEq

/-- The state after `__init__` and `set_up`: zero everywhere. -/
def initState : State :=
  { opt := { improvement_steps := 0, updates := 0 }
    optimization_calls := 0
    sync_count := 0 }

/-- `DecoupledValueGradientObjective.optimize` (objectives.py lines
302-311): run the base optimize, then `sync()` when
`self._optimization_calls % self._sync_period == 0`, otherwise decrement
`improvement_steps`.  The source never assigns `_optimization_calls`
after `__init__`, so the field is read but not changed here. -/
def optimize (sync_period : Nat) (s : State)
    (batches : List (List Transition)) : State :=
  let opt := ValueGradientObjective.optimize s.opt batches
  if s.optimization_calls % sync_period = 0 then
    { s with opt := opt, sync_count := s.sync_count + 1 }
  else
    { s with opt := { opt with improvement_steps := opt.improvement_steps - 1 } }

/-- `n` consecutive `optimize` calls from the initial state, each with an
empty yield from `sample_batches` (the sync cadence is independent of the
batches). -/
def run (sync_period : Nat) : Nat → State
  | 0 => initState
  | n + 1 => optimize sync_period (run sync_period n) []

end DecoupledValueGradientObjective

/-! ### Constructor argument binding

`Objective.__init__` (objectives.py lines 28-32) declares four explicit
parameters: `scope`, `replay_buffer`, `func`, `iteration_of_optimization`.
`ValueGradientObjective.__init__` calls
`super().__init__(self, scope, replay_buffer, value_func,
iteration_of_optimization)` (lines 156-160) and
`PolicyGradientObjective.__init__` calls
`super().__init__(self, scope, replay_buffer, policy_func,
iteration_of_optimization)` (lines 339-343): five positional arguments
each.  `DecoupledValueGradientObjective.__init__` calls
`super().__init__` with seven positional arguments (lines 279-285)
against `ValueGradientObjective.__init__`'s seven explicit parameters
(lines 125-132).  None of these initializers has defaults or varargs, so
a Python positional call binds exactly when the argument count matches
the explicit parameter count; a mismatch raises `TypeError` regardless of
the argument values. -/

/-- Outcome of a Python constructor call. -/
inductive PyConstructOutcome
  | ok
  | typeError
deriving DecidableEq

/-- Explicit parameter count of `Objective.__init__` (lines 28-32). -/
def objectiveInitParams : Nat := 4

/-- Explicit parameter count of `ValueGradientObjective.__init__`
(lines 125-132). -/
def valueGradientInitParams : Nat := 7

/-- Positional arguments `ValueGradientObjective.__init__` passes to
`super().__init__` (lines 156-160): `self`, `scope`, `replay_buffer`,
`value_func`, `iteration_of_optimization`. -/
def valueGradientSuperArgs : Nat := 5

/-- Positional arguments `PolicyGradientObjective.__init__` passes to
`super().__init__` (lines 339-343): `self`, `scope`, `replay_buffer`,
`policy_func`, `iteration_of_optimization`. -/
def policyGradientSuperArgs : Nat := 5

/-- Positional arguments `DecoupledValueGradientObjective.__init__`
passes to `super().__init__` (lines 279-285). -/
def decoupledSuperArgs : Nat := 7

/-- A Python positional call with no defaults and no varargs binds
exactly when the counts agree. -/
def pyBindOk (params args : Nat) : Bool := args = params

/-- Outcome of `ValueGradientObjective(...)`: the body runs until the
`super().__init__` call, whose binding fails when the argument count does
not match `Objective.__init__`'s parameter count. -/
def valueGradientConstruct : PyConstructOutcome :=
  if pyBindOk objectiveInitParams valueGradientSuperArgs then .ok
  else .typeError

/-- Outcome of `PolicyGradientObjective(...)`. -/
def policyGradientConstruct : PyConstructOutcome :=
  if pyBindOk objectiveInitParams policyGradientSuperArgs then .ok
  else .typeError

/-- Outcome of `DecoupledValueGradientObjective(...)`: its own
`super().__init__` call binds against `ValueGradientObjective.__init__`,
whose body then runs (and in turn reaches `Objective.__init__`). -/
def decoupledConstruct : PyConstructOutcome :=
  if pyBindOk valueGradientInitParams decoupledSuperArgs then
    valueGradientConstruct
  else .typeError

/-! ### `set_up` -/

/-- The configuration values the spec asks `set_up` to validate.
`steps` is an `Int` so that non-positive horizons are expressible. -/
structure VGOConfig where
  discount_factor : ℚ
  steps : Int
deriving DecidableEq

/-- The graph objects `ValueGradientObjective.set_up` (objectives.py
lines 185-204) creates: the `[None, 1]`-shaped bellman target placeholder
and the mean of the one-half squared error objective.  The body calls
`self._func.set_up`, `add_target_placeholder` and `minimize` — external
collaborator operations modelled as succeeding — and contains no branch
on `discount_factor` or `steps`; neither field is read anywhere in it. -/
structure SetUpGraph where
  bellman_plh_shape : List (Option Nat)
  objective_built : Bool
deriving DecidableEq

/-- `ValueGradientObjective.set_up` (objectives.py lines 185-204) as a
function of the configuration: it builds the graph and cannot fail on the
configuration, since the body never inspects `discount_factor` or
`steps`. -/
def set_up (_cfg : VGOConfig) : Except String SetUpGraph :=
  Except.ok { bellman_plh_shape := [none, some 1], objective_built := true }

/-! ### Concrete inputs used in the claim instances -/

/-- A non-terminal environment step at state `k` with reward `r`. -/
def stepNT (k : Int) (r : ℚ) : EnvStep :=
  { state := k, action := 0, reward := r, next_state := k + 1, done := false }

/-- A terminal environment step at state `k` with reward `r`. -/
def stepT (k : Int) (r : ℚ) : EnvStep :=
  { state := k, action := 0, reward := r, next_state := k + 1, done := true }

/-- The objective state after one non-terminal ingest of `stepNT 0 1`
from the initial state (used in the four-step scenario). -/
def oneWaiting1 : ValueGradientObjective.State :=
  { waiting := [make_element (stepNT 0 1)], replay := [], bootstrap_calls := [] }

/-- The objective state after one non-terminal ingest of `stepNT 0 2`
from the initial state. -/
def oneWaiting2 : ValueGradientObjective.State :=
  { waiting := [make_element (stepNT 0 2)], replay := [], bootstrap_calls := [] }

end Advantage

namespace Advantage

/-- Folding over the empty buffer is a no-op: the factor array and the
return array are both empty, and the empty broadcast succeeds. -/
theorem add_reward_nil (d r : ℚ) :
    ValueGradientObjective.add_reward d [] r = some [] := rfl

/-- Projecting the fields of `make_element`. -/
theorem make_element_done (env : EnvStep) : (make_element env).done = env.done := rfl

/-- The reward field of `make_element`. -/
theorem make_element_reward (env : EnvStep) :
    (make_element env).reward = env.reward := rfl

/-- The next-state field of `make_element`. -/
theorem make_element_next_state (env : EnvStep) :
    (make_element env).next_state = env.next_state := rfl

/-- **C1.** The spec's folding law fails on the code.  At the spec's own
instance — buffer length `L = 3`, `discount = 9/10`, pending raw rewards
all `1`, new reward `1` — `_add_reward` computes the single factor
`(9/10)^(L-1) = 81/100` (from `np.arange(1, buffer_len)[-1:]`) and
broadcasts it onto every pending return, so all three `n_step_return`
values become `181/100`; the claim demands that the earliest transition
receive exponent `L = 3`, i.e. become `1 + (9/10)^3 = 1729/1000`, which
differs. -/
theorem c1_add_reward_applies_one_uniform_factor :
    (ValueGradientObjective.add_reward (9/10)
        [make_element (stepNT 0 1), make_element (stepNT 1 1),
          make_element (stepNT 2 1)] 1).map
        (fun l => l.map Transition.n_step_return)
      = some [181/100, 181/100, 181/100]
    ∧ ((181 : ℚ)/100) ≠ 1 + (9/10) ^ 3 := by
  constructor
  · simp [ValueGradientObjective.add_reward, make_element, stepNT, npArange,
      sliceFromLast, npAddInPlace, List.range_succ]
    norm_num
  · norm_num

/-- **C2.** The sync cadence claim fails on the code: `_optimization_calls`
is never incremented, so `0 % sync_period == 0` holds on every call.  With
`sync_period = 5`, twelve `optimize` calls perform twelve `sync()`
invocations (not two), leave `improvement_steps` at `12` (not `2`), and
leave the call counter at `0`. -/
theorem c2_sync_fires_on_every_call :
    (DecoupledValueGradientObjective.run 5 12).sync_count = 12
    ∧ (DecoupledValueGradientObjective.run 5 12).opt.improvement_steps = 12
    ∧ (DecoupledValueGradientObjective.run 5 12).optimization_calls = 0 := by
  decide

/-- **C3.** The full-window-flush claim fails on the code: with horizon
`steps = 1`, ingesting the first (i.e. the `steps`-th) consecutive
non-terminal transition does not flush — the flush test compares the
buffer length *before* insertion (`0`) against `steps` — so the element is
appended, nothing reaches the replay buffer, and `bootstrap_func` is never
called. -/
theorem c3_steps_th_ingest_does_not_flush :
    ValueGradientObjective.push (1/2) 1 (fun _ => 0)
        ValueGradientObjective.initState (stepNT 0 1)
      = some { waiting := [make_element (stepNT 0 1)], replay := []
               bootstrap_calls := [] } := by
  rfl

/-- **C4.** The terminal-flush claim fails on the code: ingesting a
terminal transition with the waiting buffer empty flushes, but the batch
transferred to the replay buffer is the *prior* buffer contents only — the
empty batch — and the terminal transition itself is discarded rather than
included. -/
theorem c4_terminal_flush_discards_incoming :
    ValueGradientObjective.push (1/2) 3 (fun _ => 0)
        ValueGradientObjective.initState (stepT 0 1)
      = some { waiting := [], replay := [[]], bootstrap_calls := [] }
    ∧ ([] : List Transition) ≠ [make_element (stepT 0 1)] := by
  constructor
  · rfl
  · simp

/-- **C5.** No concrete objective can be instantiated:
`ValueGradientObjective.__init__` and `PolicyGradientObjective.__init__`
pass five positional arguments (`self` plus four) to
`Objective.__init__`, which has four explicit parameters, so the call
raises `TypeError`; `DecoupledValueGradientObjective.__init__` binds its
parent's seven parameters correctly but then fails inside the parent the
same way. -/
theorem c5_constructors_raise_type_error :
    valueGradientConstruct = PyConstructOutcome.typeError
    ∧ policyGradientConstruct = PyConstructOutcome.typeError
    ∧ decoupledConstruct = PyConstructOutcome.typeError :=
  ⟨rfl, rfl, rfl⟩

/-- **C6.** The concrete scenario (`discount = 99/100`, `steps = 3`,
rewards all `1`, terminal on the fourth step) fails on the code: the
first ingest is buffered, and the second ingest already raises — with one
pending element, `np.arange(1, 1)[-1:]` is empty, and broadcasting the
empty discount array onto the length-1 return array is a `ValueError` —
so no flush of four transitions (and no return of `3.940399`) is ever
produced. -/
theorem c6_second_ingest_raises_value_error :
    ValueGradientObjective.push (99/100) 3 (fun _ => 0)
        ValueGradientObjective.initState (stepNT 0 1) = some oneWaiting1
    ∧ ValueGradientObjective.push (99/100) 3 (fun _ => 0)
        oneWaiting1 (stepNT 1 1) = none := by
  constructor
  · rfl
  · simp [ValueGradientObjective.push, ValueGradientObjective.add_reward,
      oneWaiting1, make_element, stepNT, npArange, sliceFromLast, npAddInPlace]

/-- **C7.** The buffering invariant fails on the code for `n = 2 < steps
= 5`: the first non-terminal ingest is buffered, but the second raises
the empty-broadcast `ValueError` inside `_add_reward`, so the waiting
buffer never reaches length `2`. -/
theorem c7_buffer_never_reaches_two :
    ValueGradientObjective.push (1/2) 5 (fun _ => 0)
        ValueGradientObjective.initState (stepNT 0 2) = some oneWaiting2
    ∧ ValueGradientObjective.push (1/2) 5 (fun _ => 0)
        oneWaiting2 (stepNT 1 3) = none := by
  constructor
  · rfl
  · simp [ValueGradientObjective.push, ValueGradientObjective.add_reward,
      oneWaiting2, make_element, stepNT, npArange, sliceFromLast, npAddInPlace]

/-- The batch loop inside `optimize` only touches the update counter. -/
theorem foldl_update_keeps_improvement (s : ValueGradientObjective.OptState)
    (bs : List (List Transition)) :
    (bs.foldl (fun st _b => { st with updates := st.updates + 1 }) s).improvement_steps
      = s.improvement_steps := by
  induction bs generalizing s with
  | nil => rfl
  | cons b bs ih => exact ih _

/-- **C8.** Both `ValueGradientObjective.optimize` and
`PolicyGradientObjective.optimize` increment `improvement_steps` by
exactly one per call, whatever list of batches (possibly empty) the
replay buffer's `sample_batches` yields. -/
theorem c8_optimize_increments_once (s : ValueGradientObjective.OptState)
    (batches : List (List Transition)) :
    (ValueGradientObjective.optimize s batches).improvement_steps
        = s.improvement_steps + 1
    ∧ (PolicyGradientObjective.optimize s batches).improvement_steps
        = s.improvement_steps + 1 := by
  refine ⟨?_, ?_⟩ <;>
    simp [ValueGradientObjective.optimize, PolicyGradientObjective.optimize,
      foldl_update_keeps_improvement]

/-- **C9 (counterexample).** An invalid configuration — discount factor
`2 ∉ (0,1]` and horizon `steps = 0 < 1` — is not rejected: `set_up`
succeeds on it, because neither `__init__` nor `set_up` inspects these
fields. -/
theorem c9_invalid_config_not_rejected :
    set_up { discount_factor := 2, steps := 0 }
      = Except.ok { bellman_plh_shape := [none, some 1], objective_built := true }
    ∧ ¬ ((2 : ℚ) ≤ 1) ∧ ¬ ((1 : Int) ≤ 0) := by
  refine ⟨rfl, by norm_num, by norm_num⟩

/-- **C9 (amended).** No validation of the discount factor or the horizon
exists: `set_up` succeeds on every configuration, valid or not. -/
theorem c9_set_up_never_validates (cfg : VGOConfig) :
    set_up cfg
      = Except.ok { bellman_plh_shape := [none, some 1], objective_built := true } :=
  rfl

/-- A successful broadcast add preserves the array length. -/
theorem npAddInPlace_length {xs ys zs : List ℚ}
    (h : npAddInPlace xs ys = some zs) : zs.length = xs.length := by
  unfold npAddInPlace at h
  split_ifs at h with h1 h2
  · simp only [Option.some.injEq] at h
    subst h
    simp [List.length_zipWith, h1]
  · simp only [Option.some.injEq] at h
    subst h
    simp

/-- A successful fold preserves the buffer length. -/
theorem add_reward_length {d r : ℚ} {l l' : List Transition}
    (h : ValueGradientObjective.add_reward d l r = some l') :
    l'.length = l.length := by
  simp only [ValueGradientObjective.add_reward, Option.map_eq_some'] at h
  obtain ⟨rs, hnp, rfl⟩ := h
  have hlen := npAddInPlace_length hnp
  rw [List.length_map] at hlen
  simp [List.length_zipWith, hlen]

/-- Overwriting the accumulated returns leaves every other field of every
transition unchanged. -/
theorem zipWith_set_return_strip (l : List Transition) (rs : List ℚ)
    (h : l.length ≤ rs.length) :
    (List.zipWith (fun t r => { t with n_step_return := r }) l rs).map
        Transition.strip
      = l.map Transition.strip := by
  induction l generalizing rs with
  | nil => rfl
  | cons t l ih =>
      cases rs with
      | nil => simp at h
      | cons r rs =>
          simp only [List.zipWith_cons_cons, List.map_cons, List.cons.injEq]
          refine ⟨rfl, ih rs ?_⟩
          simpa using h

/-- A successful fold rewrites only the accumulated returns. -/
theorem add_reward_strip {d r : ℚ} {l l' : List Transition}
    (h : ValueGradientObjective.add_reward d l r = some l') :
    l'.map Transition.strip = l.map Transition.strip := by
  simp only [ValueGradientObjective.add_reward, Option.map_eq_some'] at h
  obtain ⟨rs, hnp, rfl⟩ := h
  have hlen := npAddInPlace_length hnp
  rw [List.length_map] at hlen
  exact zipWith_set_return_strip l rs (le_of_eq hlen.symm)

/-- Evaluating `push` on a terminal element with an empty waiting
buffer: the empty batch is flushed and no bootstrap call is made. -/
theorem push_empty_done (d : ℚ) (steps : Nat) (bf : Int → ℚ)
    (s : ValueGradientObjective.State) (env : EnvStep)
    (hw : s.waiting = []) (hd : env.done = true) :
    ValueGradientObjective.push d steps bf s env
      = some { waiting := [], replay := s.replay ++ [[]]
               bootstrap_calls := s.bootstrap_calls } := by
  simp [ValueGradientObjective.push, hw, hd, make_element]

/-- Evaluating `push` on a non-terminal element with an empty waiting
buffer and `steps = 0`: the empty batch is flushed after a bootstrap
call. -/
theorem push_empty_bootstrap (d : ℚ) (bf : Int → ℚ)
    (s : ValueGradientObjective.State) (env : EnvStep)
    (hw : s.waiting = []) (hd : env.done = false) :
    ValueGradientObjective.push d 0 bf s env
      = some { waiting := [], replay := s.replay ++ [[]]
               bootstrap_calls := s.bootstrap_calls ++ [env.next_state] } := by
  simp [ValueGradientObjective.push, hw, hd, make_element, add_reward_nil]

/-- **C10.** On every completed `push` that flushes — the incoming
element is terminal, or the waiting buffer already holds `steps` elements
— the incoming element is discarded: the waiting buffer is cleared
without it having been appended, and the single batch transferred to the
replay buffer consists exactly of the prior waiting-buffer contents (same
length, same transitions up to return-folding), so it does not contain
the incoming element; with an empty waiting buffer and a terminal
element, the transferred batch has length `0`. -/
theorem c10_flush_discards_incoming (d : ℚ) (steps : Nat) (bf : Int → ℚ)
    (s : ValueGradientObjective.State) (env : EnvStep)
    (s' : ValueGradientObjective.State)
    (hp : ValueGradientObjective.push d steps bf s env = some s')
    (hf : env.done = true ∨ s.waiting.length = steps) :
    s'.waiting = []
    ∧ s'.bootstrap_calls.length
        = s.bootstrap_calls.length + (if env.done then 0 else 1)
    ∧ ∃ batch, s'.replay = s.replay ++ [batch]
        ∧ batch.length = s.waiting.length
        ∧ batch.map Transition.strip = s.waiting.map Transition.strip := by
  by_cases hw : s.waiting = []
  · -- empty waiting buffer: the fold is skipped
    by_cases hd : env.done = true
    · rw [push_empty_done d steps bf s env hw hd] at hp
      rw [Option.some.injEq] at hp
      subst hp
      exact ⟨rfl, by simp [hd], [], by simp, by simp [hw], by simp [hw]⟩
    · have hdf : env.done = false := by revert hd; cases env.done <;> simp
      have hs : s.waiting.length = steps := hf.resolve_left hd
      rw [hw] at hs
      simp only [List.length_nil] at hs
      rw [← hs, push_empty_bootstrap d bf s env hw hdf] at hp
      rw [Option.some.injEq] at hp
      subst hp
      exact ⟨rfl, by simp [hdf], [], by simp, by simp [hw], by simp [hw]⟩
  · -- non-empty waiting buffer: the fold runs first
    rw [ValueGradientObjective.push] at hp
    simp only [hw, ite_false, if_neg, make_element_reward] at hp
    cases hfold : ValueGradientObjective.add_reward d s.waiting env.reward with
    | none => rw [hfold] at hp; exact absurd hp (by simp)
    | some w =>
        rw [hfold] at hp
        simp only [Option.some_bind] at hp
        have hwl : w.length = s.waiting.length := add_reward_length hfold
        have hwstrip := add_reward_strip hfold
        by_cases hd : env.done = true
        · simp only [make_element_done, hd, Bool.true_or, if_true,
            List.take_length, Option.some.injEq] at hp
          subst hp
          exact ⟨rfl, by simp [hd], w, by simp, by simp [hwl], by simp [hwstrip]⟩
        · have hdf : env.done = false := by revert hd; cases env.done <;> simp
          have hs : s.waiting.length = steps := hf.resolve_left hd
          have hws : w.length = steps := hwl.trans hs
          simp only [make_element_done, hdf, Bool.false_or, hws,
            decide_True, if_true, Bool.false_eq_true, if_false] at hp
          cases hfold2 : ValueGradientObjective.add_reward d w
              (bf (make_element env).next_state) with
          | none => rw [hfold2] at hp; exact absurd hp (by simp)
          | some w2 =>
              rw [hfold2] at hp
              have hw2l : w2.length = w.length := add_reward_length hfold2
              have htake : List.take steps w2 = w2 := by
                rw [← hw2l.trans hws]
                exact List.take_length w2
              simp only [Option.map_some', Option.some.injEq] at hp
              rw [htake] at hp
              subst hp
              refine ⟨rfl, by simp [hdf], w2, by simp, ?_, ?_⟩
              · simp [hw2l, hwl]
              · simp [(add_reward_strip hfold2).trans hwstrip]

/-- **C10 (witness).** Ingesting a terminal step into the initial state:
the flush completes, the waiting buffer stays empty, no bootstrap call is
made, and the batch pushed to the replay buffer has length `0` — the
terminal element is not in it. -/
theorem c10_flush_discards_incoming_witness :
    ({ waiting := [], replay := [[]], bootstrap_calls := [] } :
        ValueGradientObjective.State).waiting = []
    ∧ ({ waiting := [], replay := [[]], bootstrap_calls := [] } :
        ValueGradientObjective.State).bootstrap_calls.length
        = ValueGradientObjective.initState.bootstrap_calls.length
          + (if (stepT 0 1).done then 0 else 1)
    ∧ ∃ batch,
        ({ waiting := [], replay := [[]], bootstrap_calls := [] } :
            ValueGradientObjective.State).replay
          = ValueGradientObjective.initState.replay ++ [batch]
        ∧ batch.length = ValueGradientObjective.initState.waiting.length
        ∧ batch.map Transition.strip
            = ValueGradientObjective.initState.waiting.map Transition.strip :=
  c10_flush_discards_incoming 1 3 (fun _ => 0)
    ValueGradientObjective.initState (stepT 0 1)
    { waiting := [], replay := [[]], bootstrap_calls := [] }
    rfl (Or.inl rfl)

end Advantage
